import Mathlib

/-
  Verification development for the nova-renderer rendergraph core.

  The definitions below are a shallow embedding of
  `include/nova_renderer/rendergraph.hpp` (notably the fully-inlined template
  `Rendergraph::add_renderpass`) and of the resource-registry operations it
  uses from `include/nova_renderer/resource_loader.hpp`.  `rx::map` is
  embedded as an association list, `rx::ptr` / raw device pointers as
  `Option`, and the abstract device interface as a record whose flags say
  whether its creation calls return a non-null object.  Log output is
  embedded as a list of structured log entries.
-/

namespace NovaRenderer

/-! ## Association-list maps (embedding of `rx::map` / `std::unordered_map`) -/

def lookupKey {κ α : Type} [DecidableEq κ] (k : κ) : List (κ × α) → Option α
  | [] => none
  | p :: ps => if p.1 = k then some p.2 else lookupKey k ps

def removeKey {α : Type} (k : String) : List (String × α) → List (String × α)
  | [] => []
  | p :: ps => if p.1 = k then removeKey k ps else p :: removeKey k ps

def insertKey {α : Type} (k : String) (v : α) (l : List (String × α)) : List (String × α) :=
  removeKey k l ++ [(k, v)]

/-! ## Data model -/

/-- Modelled from the spec: the reserved backbuffer name.  The constant is
used by `rendergraph.hpp` but defined in a header that is not part of the
available sources; its concrete value is irrelevant to every claim. -/
def BACKBUFFER_NAME : String := "Backbuffer"

/-- One declared output attachment of a renderpass
(`renderpack::TextureAttachmentInfo`); only the name matters to the
rendergraph code. -/
structure TextureAttachmentInfo where
  name : String
deriving DecidableEq, Repr

/-- `renderpack::RenderPassCreateInfo`, restricted to the fields that
`Rendergraph::add_renderpass` reads. -/
structure RenderPassCreateInfo where
  name : String
  texture_outputs : List TextureAttachmentInfo
  depth_texture : Option TextureAttachmentInfo
  pipeline_names : List String
deriving DecidableEq, Repr

/-- A render-target entry of the resource registry.  `image` is the
`rx::ptr<rhi::RhiImage>` owned by the entry: `none` models a null pointer
(for example after the image has been moved out). -/
structure RenderTargetEntry where
  image : Option Nat
  width : Nat
  height : Nat
deriving DecidableEq, Repr

/-- The slice of `DeviceResources` that `add_renderpass` touches: the
name-keyed render-target registry. -/
structure DeviceResources where
  render_targets : List (String × RenderTargetEntry)
deriving DecidableEq, Repr

/-- `DeviceResources::get_render_target`: lookup by name, empty result when
absent. -/
def DeviceResources.get_render_target (res : DeviceResources) (name : String) :
    Option RenderTargetEntry :=
  lookupKey name res.render_targets

/-- Sets the `image` field of the registry entry for `name` to null,
embedding `rx::utility::move((*depth_tex)->image)` seen from the registry's
side. -/
def setImageNone (name : String) :
    List (String × RenderTargetEntry) → List (String × RenderTargetEntry) :=
  List.map (fun p => if p.1 = name then (p.1, { p.2 with image := none }) else p)

/-- A device renderpass object (`rhi::RhiRenderpass`); the embedding records
the framebuffer size it was created with. -/
structure RhiRenderpass where
  width : Nat
  height : Nat
deriving DecidableEq, Repr

/-- A device framebuffer object (`rhi::RhiFramebuffer`); the embedding
records the attachments and size passed to `create_framebuffer`. -/
structure RhiFramebuffer where
  color_attachments : List (Option Nat)
  depth_attachment : Option Nat
  width : Nat
  height : Nat
deriving DecidableEq, Repr

/-- The abstract device interface (`rhi::RenderDevice`) as `add_renderpass`
sees it: a swapchain size and, for each creation call, whether the backend
returns a non-null object. -/
structure RenderDevice where
  swapchain_width : Nat
  swapchain_height : Nat
  renderpass_ok : Bool
  framebuffer_ok : Bool
deriving DecidableEq, Repr

/-- `RenderDevice::create_renderpass`: returns a renderpass sized to the
given framebuffer size, or null on backend failure. -/
def RenderDevice.create_renderpass (dev : RenderDevice) (w h : Nat) :
    Option RhiRenderpass :=
  if dev.renderpass_ok then some ⟨w, h⟩ else none

/-- `RenderDevice::create_framebuffer`: returns a framebuffer recording the
attachments and size it was created with, or null on backend failure. -/
def RenderDevice.create_framebuffer (dev : RenderDevice) (colors : List (Option Nat))
    (depth : Option Nat) (w h : Nat) : Option RhiFramebuffer :=
  if dev.framebuffer_ok then some ⟨colors, depth, w, h⟩ else none

/-- The fields of a `Renderpass` object that `add_renderpass` writes. -/
structure Renderpass where
  id : Nat
  name : String
  is_builtin : Bool
  renderpass : Option RhiRenderpass
  framebuffer : Option RhiFramebuffer
  pipeline_names : List String
  writes_to_backbuffer : Bool
deriving DecidableEq, Repr

/-- The `Rendergraph` state: staleness flag, pass map, cached execution
order, and metadata map. -/
structure Rendergraph where
  is_dirty : Bool
  renderpasses : List (String × Renderpass)
  cached_execution_order : List String
  renderpass_metadatas : List (String × RenderPassCreateInfo)
deriving DecidableEq, Repr

/-- Structured embedding of the messages `add_renderpass` sends to the
`rendergraph` logger. -/
inductive LogEntry where
  /-- "Pass %s writes to the backbuffer and %zu other textures, but that's
  not allowed ..." -/
  | backbufferConflict (passName : String) (numOtherTextures : Nat)
  /-- "Attachment %s has a size of %dx%d, but the framebuffer for pass %s
  has a size of %dx%d - these must match! ..." -/
  | sizeMismatch (attachmentName : String) (aw ah : Nat) (passName : String) (fw fh : Nat)
  /-- "No render target named %s" -/
  | missingRenderTarget (attachmentName : String)
  /-- "Could not create renderpass %s because there were errors in the
  attachment specification ..." -/
  | attachmentSpecError (passName : String)
  /-- "Could not create renderpass %s" -/
  | renderpassCreateFail (passName : String)
deriving DecidableEq, Repr

/-! ## The attachment-processing loop of `add_renderpass` -/

/-- The loop-carried state of the `texture_outputs.each_fwd` lambda in
`Rendergraph::add_renderpass`: the collected color attachments, the
framebuffer size established so far, the collected attachment errors, the
missing-render-target flag, the log output so far, and the `Renderpass`
object whose fields the lambda mutates. -/
structure AttachState where
  color_attachments : List (Option Nat)
  framebuffer_width : Nat
  framebuffer_height : Nat
  attachment_errors : List LogEntry
  missing_render_targets : Bool
  log : List LogEntry
  pass : Renderpass
deriving DecidableEq, Repr

/-- One iteration of the `each_fwd` lambda: `numOutputs` is
`create_info.texture_outputs.size()` and `passName` is `create_info.name`. -/
def processAttachment (dev : RenderDevice) (res : DeviceResources) (numOutputs : Nat)
    (passName : String) (st : AttachState) (att : TextureAttachmentInfo) : AttachState :=
  if att.name = BACKBUFFER_NAME then
    let st' :=
      if numOutputs = 1 then
        { st with pass := { st.pass with writes_to_backbuffer := true, framebuffer := none } }
      else
        { st with attachment_errors :=
            st.attachment_errors ++ [LogEntry.backbufferConflict passName (numOutputs - 1)] }
    { st' with framebuffer_width := dev.swapchain_width,
               framebuffer_height := dev.swapchain_height }
  else
    match res.get_render_target att.name with
    | some rt =>
      let st' := { st with color_attachments := st.color_attachments ++ [rt.image] }
      if 0 < st'.framebuffer_width then
        if rt.width ≠ st'.framebuffer_width ∨ rt.height ≠ st'.framebuffer_height then
          { st' with attachment_errors :=
              st'.attachment_errors ++
                [LogEntry.sizeMismatch att.name rt.width rt.height passName
                  st'.framebuffer_width st'.framebuffer_height] }
        else st'
      else
        { st' with framebuffer_width := rt.width, framebuffer_height := rt.height }
    | none =>
      { st with log := st.log ++ [LogEntry.missingRenderTarget att.name],
                missing_render_targets := true }

/-- The initial loop state for a given `Renderpass` object. -/
def initAttachState (pass : Renderpass) : AttachState :=
  { color_attachments := []
    framebuffer_width := 0
    framebuffer_height := 0
    attachment_errors := []
    missing_render_targets := false
    log := []
    pass := pass }

/-- The state after the whole `each_fwd` loop over
`create_info.texture_outputs`. -/
def attachState (dev : RenderDevice) (res : DeviceResources)
    (create_info : RenderPassCreateInfo) (pass : Renderpass) : AttachState :=
  create_info.texture_outputs.foldl
    (processAttachment dev res create_info.texture_outputs.length create_info.name)
    (initAttachState pass)

/-! ## Graph mutation operations -/

/-- Modelled from the spec: the body of `Rendergraph::destroy_renderpass` is
not among the available sources (only its declaration is).  Per the spec it
tears down the device renderpass/framebuffer and removes the pass and its
metadata, is idempotent (a no-op) when the name is absent, and marks the
cached execution order stale. -/
def Rendergraph.destroy_renderpass (g : Rendergraph) (name : String) : Rendergraph :=
  if (lookupKey name g.renderpasses).isSome then
    { g with renderpasses := removeKey name g.renderpasses,
             renderpass_metadatas := removeKey name g.renderpass_metadatas,
             is_dirty := true }
  else g

/-- The `depth_attachment` immediately-invoked lambda of `add_renderpass`:
resolves the declared depth texture and, when found, moves the device image
out of the registry entry (leaving the entry's `image` null).  Returns the
moved image and the updated registry. -/
def moveDepthImage (create_info : RenderPassCreateInfo)
    (resource_storage : DeviceResources) : Option Nat × DeviceResources :=
  match create_info.depth_texture with
  | some d =>
    match resource_storage.get_render_target d.name with
    | some rt =>
      (rt.image,
       { resource_storage with
           render_targets := setImageNone d.name resource_storage.render_targets })
    | none => (none, resource_storage)
  | none => (none, resource_storage)

/-- The full result of a call to `add_renderpass`: the returned pointer
(`none` embeds `nullptr`), the rendergraph state, the resource-registry
state, and the log output. -/
structure AddResult where
  result : Option Renderpass
  graph : Rendergraph
  resources : DeviceResources
  log : List LogEntry
deriving DecidableEq, Repr

/-- `Rendergraph::add_renderpass`, straight-line embedding of the template
body in `rendergraph.hpp`:
1. run the attachment loop over `create_info.texture_outputs`;
2. if any render target was missing, return null;
3. resolve the depth texture, moving its image out of the registry entry;
4. if any attachment error was recorded, log them all and return null;
5. create the device renderpass; on null, log and return null;
6. unless the pass writes to the backbuffer, create (and store, without a
   null check) the framebuffer;
7. set the pipeline names and the id (the current metadata-map size),
   destroy any same-named pass, insert pass and metadata, mark dirty. -/
def Rendergraph.add_renderpass (g : Rendergraph) (dev : RenderDevice)
    (renderpass : Renderpass) (create_info : RenderPassCreateInfo)
    (resource_storage : DeviceResources) : AddResult :=
  let metadata := create_info
  let st := attachState dev resource_storage create_info renderpass
  if st.missing_render_targets then
    { result := none, graph := g, resources := resource_storage, log := st.log }
  else
    let depthMoved := moveDepthImage create_info resource_storage
    let depth_attachment := depthMoved.1
    let res1 := depthMoved.2
    if st.attachment_errors.isEmpty then
      match dev.create_renderpass st.framebuffer_width st.framebuffer_height with
      | none =>
        { result := none, graph := g, resources := res1,
          log := st.log ++ [LogEntry.renderpassCreateFail create_info.name] }
      | some rp =>
        let pass1 := { st.pass with renderpass := some rp }
        let pass2 :=
          if pass1.writes_to_backbuffer then pass1
          else
            { pass1 with
                framebuffer := dev.create_framebuffer st.color_attachments
                  depth_attachment st.framebuffer_width st.framebuffer_height }
        let pass3 := { pass2 with
            pipeline_names := create_info.pipeline_names,
            id := g.renderpass_metadatas.length }
        let g1 := g.destroy_renderpass create_info.name
        let g2 := { g1 with
            renderpasses := insertKey create_info.name pass3 g1.renderpasses,
            renderpass_metadatas := insertKey create_info.name metadata g1.renderpass_metadatas,
            is_dirty := true }
        { result := some pass3, graph := g2, resources := res1, log := st.log }
    else
      { result := none, graph := g, resources := res1,
        log := st.log ++ st.attachment_errors ++
          [LogEntry.attachmentSpecError create_info.name] }

/-! ## Execution-order query -/

/-- `Rendergraph::get_renderpass`: pure lookup. -/
def Rendergraph.get_renderpass (g : Rendergraph) (name : String) : Option Renderpass :=
  lookupKey name g.renderpasses

/-- `Rendergraph::get_metadata_for_renderpass`: pure lookup. -/
def Rendergraph.get_metadata_for_renderpass (g : Rendergraph) (name : String) :
    Option RenderPassCreateInfo :=
  lookupKey name g.renderpass_metadatas

/-- Insertion into a list of (id, name) pairs kept sorted by id. -/
def insertById (p : Nat × String) : List (Nat × String) → List (Nat × String)
  | [] => [p]
  | q :: qs => if p.1 ≤ q.1 then p :: q :: qs else q :: insertById p qs

/-- Modelled from the spec: the recomputation step of
`calculate_renderpass_execution_order` is not among the available sources.
Per the spec it produces a total order over all registered passes with a
deterministic tie-break by registration id (the exact dependency-edge rule
is left open by the spec, so the model orders the registered passes by their
registration id). -/
def computeOrder (g : Rendergraph) : List String :=
  ((g.renderpasses.map (fun e => (e.2.id, e.1))).foldr insertById []).map Prod.snd

/-- Modelled from the spec: the body of
`Rendergraph::calculate_renderpass_execution_order` is not among the
available sources (only its declaration is).  Per the spec: if the cache is
fresh, return it; otherwise recompute the order, cache the result, clear the
staleness flag, and return it. -/
def Rendergraph.calculate_renderpass_execution_order (g : Rendergraph) :
    List String × Rendergraph :=
  if g.is_dirty then
    let order := computeOrder g
    (order, { g with cached_execution_order := order, is_dirty := false })
  else
    (g.cached_execution_order, g)

/-! ## Staging-buffer pool -/

/-- A pooled staging buffer (`rhi::Buffer` handed out by
`get_staging_buffer_with_size`): an identity and a capacity. -/
structure StagingBuffer where
  id : Nat
  capacity : Nat
deriving DecidableEq, Repr

/-- The staging-buffer pool state: the free lists bucketed by capacity
(`DeviceResources::staging_buffers`), a device-allocation counter and a
fresh-id source for newly allocated buffers. -/
structure StagingPool where
  buckets : List (Nat × List StagingBuffer)
  alloc_count : Nat
  next_id : Nat
deriving DecidableEq, Repr

/-- A bucket satisfies a request when its capacity is at least the request
size and its free list is non-empty. -/
def bucketFits (size : Nat) (p : Nat × List StagingBuffer) : Bool :=
  size ≤ p.1 && !p.2.isEmpty

/-- Picks the entry with the smallest capacity from a list of buckets. -/
def pickMinBucket : List (Nat × List StagingBuffer) →
    Option (Nat × List StagingBuffer)
  | [] => none
  | p :: ps =>
    match pickMinBucket ps with
    | none => some p
    | some q => if p.1 ≤ q.1 then some p else some q

/-- Replaces the free list of the bucket with capacity `c`. -/
def setBucket (c : Nat) (l : List StagingBuffer) :
    List (Nat × List StagingBuffer) → List (Nat × List StagingBuffer) :=
  List.map (fun p => if p.1 = c then (c, l) else p)

/-- Modelled from the spec: the body of
`DeviceResources::get_staging_buffer_with_size` is not among the available
sources (only its declaration is).  Per the spec it returns a pool entry
with capacity at least `size`, preferring an existing free entry in the
smallest bucket that satisfies the request, and allocates (counting the
device allocation) and inserts a new entry only if none fits. -/
def get_staging_buffer_with_size (size : Nat) (pool : StagingPool) :
    StagingBuffer × StagingPool :=
  match pickMinBucket (pool.buckets.filter (bucketFits size)) with
  | some (c, b :: rest) =>
    (b, { pool with buckets := setBucket c rest pool.buckets })
  | _ =>
    (⟨pool.next_id, size⟩,
     { pool with alloc_count := pool.alloc_count + 1, next_id := pool.next_id + 1 })

/-- Modelled from the spec: releasing a staging buffer returns it, untouched,
to the free list of its capacity's bucket (creating the bucket if needed). -/
def release_staging_buffer (b : StagingBuffer) (pool : StagingPool) : StagingPool :=
  if (lookupKey b.capacity pool.buckets).isSome then
    { pool with buckets :=
        pool.buckets.map (fun p => if p.1 = b.capacity then (p.1, b :: p.2) else p) }
  else
    { pool with buckets := pool.buckets ++ [(b.capacity, [b])] }

/-- Every free-listed buffer sits in the bucket matching its capacity. -/
def StagingPool.wellFormed (pool : StagingPool) : Prop :=
  ∀ p ∈ pool.buckets, ∀ b ∈ p.2, b.capacity = p.1

instance (pool : StagingPool) : Decidable pool.wellFormed := by
  unfold StagingPool.wellFormed; infer_instance

/-- The `Renderpass` object as the success path of `add_renderpass` leaves
it: device renderpass stored, framebuffer created unless the pass writes to
the backbuffer, pipeline names copied, id set to the metadata-map size. -/
def builtPass (g : Rendergraph) (dev : RenderDevice) (ci : RenderPassCreateInfo)
    (st : AttachState) (depth : Option Nat) : Renderpass :=
  let pass1 := { st.pass with
      renderpass := some ⟨st.framebuffer_width, st.framebuffer_height⟩ }
  let pass2 :=
    if pass1.writes_to_backbuffer then pass1
    else
      { pass1 with
          framebuffer := dev.create_framebuffer st.color_attachments depth
            st.framebuffer_width st.framebuffer_height }
  { pass2 with
      pipeline_names := ci.pipeline_names
      id := g.renderpass_metadatas.length }

/-- The rendergraph as the success path of `add_renderpass` leaves it:
same-named pass destroyed, new pass and metadata inserted, order marked
stale. -/
def graphAfterInsert (g : Rendergraph) (ci : RenderPassCreateInfo)
    (p : Renderpass) : Rendergraph :=
  let g1 := g.destroy_renderpass ci.name
  { g1 with
      renderpasses := insertKey ci.name p g1.renderpasses
      renderpass_metadatas := insertKey ci.name ci g1.renderpass_metadatas
      is_dirty := true }

/-! ## Fixtures used by witnesses and counterexamples -/

/-- A registry holding render targets "a", "a2" (100×100), "d" (50×50) and
"b" (80×60). -/
def fixtureRegistry : DeviceResources :=
  ⟨[("a", ⟨some 1, 100, 100⟩), ("a2", ⟨some 3, 100, 100⟩),
    ("d", ⟨some 2, 50, 50⟩), ("b", ⟨some 4, 80, 60⟩)]⟩

/-- A 640×480 device whose creation calls all succeed. -/
def fixtureDevice : RenderDevice := ⟨640, 480, true, true⟩

/-- A device whose `create_framebuffer` returns null. -/
def fixtureDeviceNullFramebuffer : RenderDevice := ⟨640, 480, true, false⟩

/-- A device whose `create_renderpass` returns null. -/
def fixtureDeviceNullRenderpass : RenderDevice := ⟨640, 480, false, true⟩

/-- A freshly constructed `Renderpass` object, as the `Renderpass`
constructor and member initializers leave it. -/
def freshPass (passName : String) : Renderpass :=
  { id := 0, name := passName, is_builtin := false, renderpass := none,
    framebuffer := none, pipeline_names := [], writes_to_backbuffer := false }

/-- A rendergraph with no registered passes and a fresh (non-stale) cache. -/
def emptyGraph : Rendergraph := ⟨false, [], [], []⟩

/-- Graph after adding pass "A" (output "a") to the empty graph. -/
def c6Graph1 : Rendergraph :=
  (emptyGraph.add_renderpass fixtureDevice (freshPass "A")
    ⟨"A", [⟨"a"⟩], none, []⟩ fixtureRegistry).graph

/-- Graph after additionally adding pass "B" (output "a"). -/
def c6Graph2 : Rendergraph :=
  (c6Graph1.add_renderpass fixtureDevice (freshPass "B")
    ⟨"B", [⟨"a"⟩], none, []⟩ fixtureRegistry).graph

/-- Graph after destroying pass "A" again. -/
def c6Graph3 : Rendergraph := c6Graph2.destroy_renderpass "A"

/-- Result of finally adding pass "C" (output "a"). -/
def c6Step4 : AddResult :=
  c6Graph3.add_renderpass fixtureDevice (freshPass "C")
    ⟨"C", [⟨"a"⟩], none, []⟩ fixtureRegistry

/-! ## Case lemmas for one iteration of the attachment loop -/

theorem processAttachment_backbuffer_single {dev : RenderDevice} {res : DeviceResources}
    {n : Nat} {pn : String} {st : AttachState} {att : TextureAttachmentInfo}
    (h1 : att.name = BACKBUFFER_NAME) (h2 : n = 1) :
    processAttachment dev res n pn st att
      = { st with pass := { st.pass with writes_to_backbuffer := true, framebuffer := none },
                  framebuffer_width := dev.swapchain_width,
                  framebuffer_height := dev.swapchain_height } := by
  simp [processAttachment, h1, h2]

theorem processAttachment_backbuffer_multi {dev : RenderDevice} {res : DeviceResources}
    {n : Nat} {pn : String} {st : AttachState} {att : TextureAttachmentInfo}
    (h1 : att.name = BACKBUFFER_NAME) (h2 : n ≠ 1) :
    processAttachment dev res n pn st att
      = { st with
          attachment_errors := st.attachment_errors ++ [LogEntry.backbufferConflict pn (n - 1)]
          framebuffer_width := dev.swapchain_width
          framebuffer_height := dev.swapchain_height } := by
  simp [processAttachment, h1, h2]

theorem processAttachment_missing {dev : RenderDevice} {res : DeviceResources}
    {n : Nat} {pn : String} {st : AttachState} {att : TextureAttachmentInfo}
    (h1 : att.name ≠ BACKBUFFER_NAME) (hrt : res.get_render_target att.name = none) :
    processAttachment dev res n pn st att
      = { st with log := st.log ++ [LogEntry.missingRenderTarget att.name],
                  missing_render_targets := true } := by
  simp [processAttachment, h1, hrt]

theorem processAttachment_resolved_zero {dev : RenderDevice} {res : DeviceResources}
    {n : Nat} {pn : String} {st : AttachState} {att : TextureAttachmentInfo}
    {rt : RenderTargetEntry}
    (h1 : att.name ≠ BACKBUFFER_NAME) (hrt : res.get_render_target att.name = some rt)
    (hw : st.framebuffer_width = 0) :
    processAttachment dev res n pn st att
      = { st with color_attachments := st.color_attachments ++ [rt.image],
                  framebuffer_width := rt.width,
                  framebuffer_height := rt.height } := by
  simp [processAttachment, h1, hrt, hw]

theorem processAttachment_resolved_match {dev : RenderDevice} {res : DeviceResources}
    {n : Nat} {pn : String} {st : AttachState} {att : TextureAttachmentInfo}
    {rt : RenderTargetEntry}
    (h1 : att.name ≠ BACKBUFFER_NAME) (hrt : res.get_render_target att.name = some rt)
    (hw : 0 < st.framebuffer_width)
    (hmw : rt.width = st.framebuffer_width) (hmh : rt.height = st.framebuffer_height) :
    processAttachment dev res n pn st att
      = { st with color_attachments := st.color_attachments ++ [rt.image] } := by
  simp [processAttachment, h1, hrt, hw, hmw, hmh]

theorem processAttachment_resolved_mismatch {dev : RenderDevice} {res : DeviceResources}
    {n : Nat} {pn : String} {st : AttachState} {att : TextureAttachmentInfo}
    {rt : RenderTargetEntry}
    (h1 : att.name ≠ BACKBUFFER_NAME) (hrt : res.get_render_target att.name = some rt)
    (hw : 0 < st.framebuffer_width)
    (hmm : rt.width ≠ st.framebuffer_width ∨ rt.height ≠ st.framebuffer_height) :
    processAttachment dev res n pn st att
      = { st with
          color_attachments := st.color_attachments ++ [rt.image]
          attachment_errors := st.attachment_errors ++
            [LogEntry.sizeMismatch att.name rt.width rt.height pn
              st.framebuffer_width st.framebuffer_height] } := by
  simp [processAttachment, h1, hrt, hw, hmm]

/-- One loop iteration appends at most one entry to the error list, appends
at most one entry to the log, and never clears the missing flag. -/
theorem processAttachment_mono {dev : RenderDevice} {res : DeviceResources}
    {n : Nat} {pn : String} {st : AttachState} {att : TextureAttachmentInfo} :
    ((processAttachment dev res n pn st att).attachment_errors = st.attachment_errors ∨
      ∃ e, (processAttachment dev res n pn st att).attachment_errors
        = st.attachment_errors ++ [e]) ∧
    ((processAttachment dev res n pn st att).log = st.log ∨
      ∃ e, (processAttachment dev res n pn st att).log = st.log ++ [e]) ∧
    (st.missing_render_targets = true →
      (processAttachment dev res n pn st att).missing_render_targets = true) := by
  by_cases h1 : att.name = BACKBUFFER_NAME
  · by_cases h2 : n = 1
    · rw [processAttachment_backbuffer_single h1 h2]
      exact ⟨Or.inl rfl, Or.inl rfl, fun h => h⟩
    · rw [processAttachment_backbuffer_multi h1 h2]
      exact ⟨Or.inr ⟨_, rfl⟩, Or.inl rfl, fun h => h⟩
  · cases hrt : res.get_render_target att.name with
    | none =>
      rw [processAttachment_missing h1 hrt]
      exact ⟨Or.inl rfl, Or.inr ⟨_, rfl⟩, fun _ => rfl⟩
    | some rt =>
      by_cases hw : 0 < st.framebuffer_width
      · by_cases hmw : rt.width = st.framebuffer_width
        · by_cases hmh : rt.height = st.framebuffer_height
          · rw [processAttachment_resolved_match h1 hrt hw hmw hmh]
            exact ⟨Or.inl rfl, Or.inl rfl, fun h => h⟩
          · rw [processAttachment_resolved_mismatch h1 hrt hw (Or.inr hmh)]
            exact ⟨Or.inr ⟨_, rfl⟩, Or.inl rfl, fun h => h⟩
        · rw [processAttachment_resolved_mismatch h1 hrt hw (Or.inl hmw)]
          exact ⟨Or.inr ⟨_, rfl⟩, Or.inl rfl, fun h => h⟩
      · rw [processAttachment_resolved_zero h1 hrt (Nat.eq_zero_of_not_pos hw)]
        exact ⟨Or.inl rfl, Or.inl rfl, fun h => h⟩

theorem processAttachment_errors_mem {dev : RenderDevice} {res : DeviceResources}
    {n : Nat} {pn : String} {st : AttachState} {att : TextureAttachmentInfo}
    {a : LogEntry} (ha : a ∈ st.attachment_errors) :
    a ∈ (processAttachment dev res n pn st att).attachment_errors := by
  rcases (@processAttachment_mono dev res n pn st att).1 with h | ⟨e, h⟩ <;> rw [h]
  · exact ha
  · exact List.mem_append_left _ ha

theorem processAttachment_log_mem {dev : RenderDevice} {res : DeviceResources}
    {n : Nat} {pn : String} {st : AttachState} {att : TextureAttachmentInfo}
    {a : LogEntry} (ha : a ∈ st.log) :
    a ∈ (processAttachment dev res n pn st att).log := by
  rcases (@processAttachment_mono dev res n pn st att).2.1 with h | ⟨e, h⟩ <;> rw [h]
  · exact ha
  · exact List.mem_append_left _ ha

theorem processAttachment_errors_ne {dev : RenderDevice} {res : DeviceResources}
    {n : Nat} {pn : String} {st : AttachState} {att : TextureAttachmentInfo}
    (ha : st.attachment_errors ≠ []) :
    (processAttachment dev res n pn st att).attachment_errors ≠ [] := by
  rcases (@processAttachment_mono dev res n pn st att).1 with h | ⟨e, h⟩ <;> rw [h]
  · exact ha
  · simp

theorem foldl_errors_mem {dev : RenderDevice} {res : DeviceResources}
    {n : Nat} {pn : String} (l : List TextureAttachmentInfo) :
    ∀ st : AttachState, ∀ a ∈ st.attachment_errors,
      a ∈ (l.foldl (processAttachment dev res n pn) st).attachment_errors := by
  induction l with
  | nil => intro st a ha; simpa using ha
  | cons x xs ih =>
    intro st a ha
    exact ih _ a (processAttachment_errors_mem ha)

theorem foldl_log_mem {dev : RenderDevice} {res : DeviceResources}
    {n : Nat} {pn : String} (l : List TextureAttachmentInfo) :
    ∀ st : AttachState, ∀ a ∈ st.log,
      a ∈ (l.foldl (processAttachment dev res n pn) st).log := by
  induction l with
  | nil => intro st a ha; simpa using ha
  | cons x xs ih =>
    intro st a ha
    exact ih _ a (processAttachment_log_mem ha)

theorem foldl_errors_ne {dev : RenderDevice} {res : DeviceResources}
    {n : Nat} {pn : String} (l : List TextureAttachmentInfo) :
    ∀ st : AttachState, st.attachment_errors ≠ [] →
      (l.foldl (processAttachment dev res n pn) st).attachment_errors ≠ [] := by
  induction l with
  | nil => intro st ha; simpa using ha
  | cons x xs ih =>
    intro st ha
    exact ih _ (processAttachment_errors_ne ha)

theorem foldl_missing_mono {dev : RenderDevice} {res : DeviceResources}
    {n : Nat} {pn : String} (l : List TextureAttachmentInfo) :
    ∀ st : AttachState, st.missing_render_targets = true →
      (l.foldl (processAttachment dev res n pn) st).missing_render_targets = true := by
  induction l with
  | nil => intro st ha; simpa using ha
  | cons x xs ih =>
    intro st ha
    exact ih _ ((processAttachment_mono).2.2 ha)

/-! ## Return-path characterizations of `add_renderpass` -/

theorem add_renderpass_of_missing {g : Rendergraph} {dev : RenderDevice}
    {pass : Renderpass} {ci : RenderPassCreateInfo} {res : DeviceResources}
    (h : (attachState dev res ci pass).missing_render_targets = true) :
    g.add_renderpass dev pass ci res
      = ⟨none, g, res, (attachState dev res ci pass).log⟩ := by
  unfold Rendergraph.add_renderpass
  simp [h]

theorem add_renderpass_of_errors {g : Rendergraph} {dev : RenderDevice}
    {pass : Renderpass} {ci : RenderPassCreateInfo} {res : DeviceResources}
    (hm : (attachState dev res ci pass).missing_render_targets = false)
    (he : (attachState dev res ci pass).attachment_errors ≠ []) :
    g.add_renderpass dev pass ci res
      = ⟨none, g, (moveDepthImage ci res).2,
          (attachState dev res ci pass).log ++ (attachState dev res ci pass).attachment_errors
            ++ [LogEntry.attachmentSpecError ci.name]⟩ := by
  unfold Rendergraph.add_renderpass
  have hne : (attachState dev res ci pass).attachment_errors.isEmpty = false := by
    cases hE : (attachState dev res ci pass).attachment_errors with
    | nil => exact absurd hE he
    | cons a as => simp [hE]
  simp [hm, hne]

theorem add_renderpass_of_renderpass_fail {g : Rendergraph} {dev : RenderDevice}
    {pass : Renderpass} {ci : RenderPassCreateInfo} {res : DeviceResources}
    (hm : (attachState dev res ci pass).missing_render_targets = false)
    (he : (attachState dev res ci pass).attachment_errors = [])
    (hrp : dev.renderpass_ok = false) :
    g.add_renderpass dev pass ci res
      = ⟨none, g, (moveDepthImage ci res).2,
          (attachState dev res ci pass).log ++ [LogEntry.renderpassCreateFail ci.name]⟩ := by
  unfold Rendergraph.add_renderpass
  simp [hm, he, RenderDevice.create_renderpass, hrp]

/-- When some output names the backbuffer and there are at least two
outputs, the loop records a backbuffer-conflict error. -/
theorem foldl_backbuffer_errors_ne {dev : RenderDevice} {res : DeviceResources}
    {n : Nat} {pn : String} (hn : n ≠ 1) (l : List TextureAttachmentInfo) :
    ∀ st : AttachState, (∃ att ∈ l, att.name = BACKBUFFER_NAME) →
      (l.foldl (processAttachment dev res n pn) st).attachment_errors ≠ [] := by
  induction l with
  | nil =>
    intro st h
    obtain ⟨att, hmem, _⟩ := h
    cases hmem
  | cons x xs ih =>
    intro st h
    obtain ⟨att, hmem, hbb⟩ := h
    rcases List.mem_cons.mp hmem with heq | hmem'
    · subst heq
      show (xs.foldl (processAttachment dev res n pn)
        (processAttachment dev res n pn st att)).attachment_errors ≠ []
      apply foldl_errors_ne
      rw [processAttachment_backbuffer_multi hbb hn]
      simp
    · exact ih _ ⟨att, hmem', hbb⟩

/-- C1: a call to `Rendergraph::add_renderpass` whose `create_info` declares
the backbuffer name as an output together with at least one other declared
output returns an absent result (null) and leaves the whole rendergraph
state — pass map, metadata map, cached execution order and its staleness
flag — exactly as it was. -/
theorem add_renderpass_backbuffer_plus_other_fails
    (g : Rendergraph) (dev : RenderDevice) (pass : Renderpass)
    (ci : RenderPassCreateInfo) (res : DeviceResources)
    (hbb : ∃ att ∈ ci.texture_outputs, att.name = BACKBUFFER_NAME)
    (hlen : 2 ≤ ci.texture_outputs.length) :
    (g.add_renderpass dev pass ci res).result = none ∧
    (g.add_renderpass dev pass ci res).graph = g := by
  have hn : ci.texture_outputs.length ≠ 1 := by omega
  have herr : (attachState dev res ci pass).attachment_errors ≠ [] := by
    unfold attachState
    exact foldl_backbuffer_errors_ne hn ci.texture_outputs (initAttachState pass) hbb
  cases hm : (attachState dev res ci pass).missing_render_targets with
  | true => rw [add_renderpass_of_missing hm]; exact ⟨rfl, rfl⟩
  | false => rw [add_renderpass_of_errors hm herr]; exact ⟨rfl, rfl⟩

/-- Witness for C1 at a concrete pass declaring the backbuffer plus the
render target "a". -/
theorem add_renderpass_backbuffer_plus_other_fails_witness :
    (emptyGraph.add_renderpass fixtureDevice (freshPass "P1")
        ⟨"P1", [⟨BACKBUFFER_NAME⟩, ⟨"a"⟩], none, []⟩ fixtureRegistry).result = none ∧
    (emptyGraph.add_renderpass fixtureDevice (freshPass "P1")
        ⟨"P1", [⟨BACKBUFFER_NAME⟩, ⟨"a"⟩], none, []⟩ fixtureRegistry).graph = emptyGraph :=
  add_renderpass_backbuffer_plus_other_fails emptyGraph fixtureDevice (freshPass "P1")
    ⟨"P1", [⟨BACKBUFFER_NAME⟩, ⟨"a"⟩], none, []⟩ fixtureRegistry
    ⟨⟨BACKBUFFER_NAME⟩, by decide, rfl⟩ (by decide)

/-- Every unresolved non-backbuffer output in the list gets its
missing-render-target message logged by the loop. -/
theorem foldl_missing_reported {dev : RenderDevice} {res : DeviceResources}
    {n : Nat} {pn : String} (l : List TextureAttachmentInfo) :
    ∀ st : AttachState, ∀ att ∈ l, att.name ≠ BACKBUFFER_NAME →
      res.get_render_target att.name = none →
      LogEntry.missingRenderTarget att.name
        ∈ (l.foldl (processAttachment dev res n pn) st).log := by
  induction l with
  | nil => intro st att hmem; cases hmem
  | cons x xs ih =>
    intro st att hmem hbb hnone
    rcases List.mem_cons.mp hmem with heq | hmem'
    · subst heq
      show LogEntry.missingRenderTarget att.name
        ∈ (xs.foldl (processAttachment dev res n pn)
            (processAttachment dev res n pn st att)).log
      apply foldl_log_mem
      rw [processAttachment_missing hbb hnone]
      simp
    · exact ih _ att hmem' hbb hnone

/-- Some unresolved non-backbuffer output makes the loop set the
missing-render-targets flag. -/
theorem foldl_missing_flag {dev : RenderDevice} {res : DeviceResources}
    {n : Nat} {pn : String} (l : List TextureAttachmentInfo) :
    ∀ st : AttachState,
      (∃ att ∈ l, att.name ≠ BACKBUFFER_NAME ∧ res.get_render_target att.name = none) →
      (l.foldl (processAttachment dev res n pn) st).missing_render_targets = true := by
  induction l with
  | nil =>
    intro st h
    obtain ⟨att, hmem, _⟩ := h
    cases hmem
  | cons x xs ih =>
    intro st h
    obtain ⟨att, hmem, hbb, hnone⟩ := h
    rcases List.mem_cons.mp hmem with heq | hmem'
    · subst heq
      show (xs.foldl (processAttachment dev res n pn)
        (processAttachment dev res n pn st att)).missing_render_targets = true
      apply foldl_missing_mono
      rw [processAttachment_missing hbb hnone]
    · exact ih _ ⟨att, hmem', hbb, hnone⟩

/-- C5: when one or more declared output names (other than the backbuffer
name) have no matching registry entry, `add_renderpass` returns an absent
result, leaves both the rendergraph and the resource registry untouched, and
its log reports every missing name (collection does not stop at the first
missing one). -/
theorem add_renderpass_missing_targets_collected
    (g : Rendergraph) (dev : RenderDevice) (pass : Renderpass)
    (ci : RenderPassCreateInfo) (res : DeviceResources)
    (hex : ∃ att ∈ ci.texture_outputs,
      att.name ≠ BACKBUFFER_NAME ∧ res.get_render_target att.name = none) :
    (g.add_renderpass dev pass ci res).result = none ∧
    (g.add_renderpass dev pass ci res).graph = g ∧
    (g.add_renderpass dev pass ci res).resources = res ∧
    ∀ att ∈ ci.texture_outputs, att.name ≠ BACKBUFFER_NAME →
      res.get_render_target att.name = none →
      LogEntry.missingRenderTarget att.name ∈ (g.add_renderpass dev pass ci res).log := by
  have hm : (attachState dev res ci pass).missing_render_targets = true := by
    unfold attachState
    exact foldl_missing_flag ci.texture_outputs (initAttachState pass) hex
  rw [add_renderpass_of_missing hm]
  refine ⟨rfl, rfl, rfl, ?_⟩
  intro att hmem hbb hnone
  show LogEntry.missingRenderTarget att.name ∈ (attachState dev res ci pass).log
  unfold attachState
  exact foldl_missing_reported ci.texture_outputs (initAttachState pass) att hmem hbb hnone

/-- Witness for C5 at a concrete pass declaring the unresolved outputs "x"
and "y" around the resolvable output "a": both missing names are reported. -/
theorem add_renderpass_missing_targets_collected_witness :
    (emptyGraph.add_renderpass fixtureDevice (freshPass "P5")
        ⟨"P5", [⟨"x"⟩, ⟨"a"⟩, ⟨"y"⟩], none, []⟩ fixtureRegistry).result = none ∧
    (emptyGraph.add_renderpass fixtureDevice (freshPass "P5")
        ⟨"P5", [⟨"x"⟩, ⟨"a"⟩, ⟨"y"⟩], none, []⟩ fixtureRegistry).graph = emptyGraph ∧
    (emptyGraph.add_renderpass fixtureDevice (freshPass "P5")
        ⟨"P5", [⟨"x"⟩, ⟨"a"⟩, ⟨"y"⟩], none, []⟩ fixtureRegistry).resources = fixtureRegistry ∧
    ∀ att ∈ [(⟨"x"⟩ : TextureAttachmentInfo), ⟨"a"⟩, ⟨"y"⟩], att.name ≠ BACKBUFFER_NAME →
      fixtureRegistry.get_render_target att.name = none →
      LogEntry.missingRenderTarget att.name
        ∈ (emptyGraph.add_renderpass fixtureDevice (freshPass "P5")
            ⟨"P5", [⟨"x"⟩, ⟨"a"⟩, ⟨"y"⟩], none, []⟩ fixtureRegistry).log :=
  add_renderpass_missing_targets_collected emptyGraph fixtureDevice (freshPass "P5")
    ⟨"P5", [⟨"x"⟩, ⟨"a"⟩, ⟨"y"⟩], none, []⟩ fixtureRegistry
    ⟨⟨"x"⟩, by decide, by decide, by decide⟩

theorem add_renderpass_of_success {g : Rendergraph} {dev : RenderDevice}
    {pass : Renderpass} {ci : RenderPassCreateInfo} {res : DeviceResources}
    (hm : (attachState dev res ci pass).missing_render_targets = false)
    (he : (attachState dev res ci pass).attachment_errors = [])
    (hrp : dev.renderpass_ok = true) :
    g.add_renderpass dev pass ci res
      = ⟨some (builtPass g dev ci (attachState dev res ci pass) (moveDepthImage ci res).1),
         graphAfterInsert g ci
           (builtPass g dev ci (attachState dev res ci pass) (moveDepthImage ci res).1),
         (moveDepthImage ci res).2,
         (attachState dev res ci pass).log⟩ := by
  unfold Rendergraph.add_renderpass builtPass graphAfterInsert
  simp [hm, he, RenderDevice.create_renderpass, hrp]

/-- Whenever the missing-render-target early return is not taken, the
resource-registry state after `add_renderpass` is exactly the registry after
the depth-image move — on the error paths as well as on success. -/
theorem add_renderpass_resources_of_not_missing {g : Rendergraph} {dev : RenderDevice}
    {pass : Renderpass} {ci : RenderPassCreateInfo} {res : DeviceResources}
    (hm : (attachState dev res ci pass).missing_render_targets = false) :
    (g.add_renderpass dev pass ci res).resources = (moveDepthImage ci res).2 := by
  cases hE : (attachState dev res ci pass).attachment_errors with
  | cons a as =>
    rw [add_renderpass_of_errors hm (by rw [hE]; simp)]
  | nil =>
    cases hrp : dev.renderpass_ok with
    | false => rw [add_renderpass_of_renderpass_fail hm hE hrp]
    | true => rw [add_renderpass_of_success hm hE hrp]

theorem lookupKey_setImageNone (k : String) :
    ∀ l : List (String × RenderTargetEntry),
      lookupKey k (setImageNone k l)
        = (lookupKey k l).map (fun e => { e with image := none }) := by
  intro l
  induction l with
  | nil => rfl
  | cons p ps ih =>
    by_cases h : p.1 = k
    · simp [setImageNone, lookupKey, h]
    · simp only [setImageNone, List.map_cons, lookupKey, h, if_neg, if_false]
      simpa [setImageNone] using ih

/-- Moving the depth image out nulls the registry entry's image, as later
observed through `get_render_target`. -/
theorem moveDepthImage_get {ci : RenderPassCreateInfo} {res : DeviceResources}
    {d : TextureAttachmentInfo} {rt : RenderTargetEntry}
    (hd : ci.depth_texture = some d)
    (hrt : res.get_render_target d.name = some rt) :
    (moveDepthImage ci res).2.get_render_target d.name = some { rt with image := none } := by
  unfold moveDepthImage
  simp only [hd, hrt]
  show lookupKey d.name (setImageNone d.name res.render_targets) = _
  rw [lookupKey_setImageNone]
  unfold DeviceResources.get_render_target at hrt
  rw [hrt]
  rfl

/-- Counterexample to C3: when the device returns a null framebuffer
(`create_framebuffer` fails) for an otherwise valid pass, `add_renderpass`
does NOT fail — it returns the pass, inserts it into the pass map, and
stores the null framebuffer in it unchecked. -/
theorem add_renderpass_null_framebuffer_still_created :
    fixtureDeviceNullFramebuffer.framebuffer_ok = false ∧
    (emptyGraph.add_renderpass fixtureDeviceNullFramebuffer (freshPass "A")
        ⟨"A", [⟨"a"⟩], none, []⟩ fixtureRegistry).result ≠ none ∧
    ((emptyGraph.add_renderpass fixtureDeviceNullFramebuffer (freshPass "A")
        ⟨"A", [⟨"a"⟩], none, []⟩ fixtureRegistry).graph.get_renderpass "A").isSome = true ∧
    ((emptyGraph.add_renderpass fixtureDeviceNullFramebuffer (freshPass "A")
        ⟨"A", [⟨"a"⟩], none, []⟩ fixtureRegistry).result.map Renderpass.framebuffer)
      = some none := by
  decide

/-- C3 (amended): only a null device *renderpass* is detected: when
`create_renderpass` returns null on a pass that reached that call (no
missing targets, no attachment errors), the failure is logged, the result is
absent, and the rendergraph is untouched; the only state change is that a
resolved depth image has already been consumed from the registry.  (A null
framebuffer from `create_framebuffer` is not checked; see the
counterexample.) -/
theorem add_renderpass_null_renderpass_fails
    (g : Rendergraph) (dev : RenderDevice) (pass : Renderpass)
    (ci : RenderPassCreateInfo) (res : DeviceResources)
    (hm : (attachState dev res ci pass).missing_render_targets = false)
    (he : (attachState dev res ci pass).attachment_errors = [])
    (hrp : dev.renderpass_ok = false) :
    (g.add_renderpass dev pass ci res).result = none ∧
    (g.add_renderpass dev pass ci res).graph = g ∧
    (g.add_renderpass dev pass ci res).resources = (moveDepthImage ci res).2 ∧
    LogEntry.renderpassCreateFail ci.name ∈ (g.add_renderpass dev pass ci res).log := by
  rw [add_renderpass_of_renderpass_fail hm he hrp]
  refine ⟨rfl, rfl, rfl, ?_⟩
  simp

/-- Witness for the amended C3 at a concrete device whose
`create_renderpass` returns null. -/
theorem add_renderpass_null_renderpass_fails_witness :
    (emptyGraph.add_renderpass fixtureDeviceNullRenderpass (freshPass "A")
        ⟨"A", [⟨"a"⟩], none, []⟩ fixtureRegistry).result = none ∧
    (emptyGraph.add_renderpass fixtureDeviceNullRenderpass (freshPass "A")
        ⟨"A", [⟨"a"⟩], none, []⟩ fixtureRegistry).graph = emptyGraph ∧
    (emptyGraph.add_renderpass fixtureDeviceNullRenderpass (freshPass "A")
        ⟨"A", [⟨"a"⟩], none, []⟩ fixtureRegistry).resources
      = (moveDepthImage ⟨"A", [⟨"a"⟩], none, []⟩ fixtureRegistry).2 ∧
    LogEntry.renderpassCreateFail "A"
      ∈ (emptyGraph.add_renderpass fixtureDeviceNullRenderpass (freshPass "A")
          ⟨"A", [⟨"a"⟩], none, []⟩ fixtureRegistry).log :=
  add_renderpass_null_renderpass_fails emptyGraph fixtureDeviceNullRenderpass (freshPass "A")
    ⟨"A", [⟨"a"⟩], none, []⟩ fixtureRegistry (by decide) (by decide) (by decide)

/-- Counterexample to C7: a call whose depth texture "d" is present in the
registry but which aborts on a missing *output* target returns before the
depth move, so the registry entry for "d" still owns its image afterwards. -/
theorem add_renderpass_depth_kept_on_missing_output :
    (fixtureRegistry.get_render_target "d").isSome = true ∧
    ((emptyGraph.add_renderpass fixtureDevice (freshPass "P7")
        ⟨"P7", [⟨"nope"⟩], some ⟨"d"⟩, []⟩ fixtureRegistry).resources.get_render_target "d")
      = some ⟨some 2, 50, 50⟩ ∧
    (emptyGraph.add_renderpass fixtureDevice (freshPass "P7")
        ⟨"P7", [⟨"nope"⟩], some ⟨"d"⟩, []⟩ fixtureRegistry).result = none := by
  decide

/-- C7 (amended): for every call declaring a registry-resident depth texture
that passes the missing-render-target check (every declared output resolves
or names the backbuffer), the depth image is moved out of the registry
entry: afterwards — including on calls that fail with recorded attachment
errors or a null device renderpass — `get_render_target` on that name yields
the entry with a null image. -/
theorem add_renderpass_moves_depth_image
    (g : Rendergraph) (dev : RenderDevice) (pass : Renderpass)
    (ci : RenderPassCreateInfo) (res : DeviceResources)
    (d : TextureAttachmentInfo) (rt : RenderTargetEntry)
    (hd : ci.depth_texture = some d)
    (hrt : res.get_render_target d.name = some rt)
    (hm : (attachState dev res ci pass).missing_render_targets = false) :
    (g.add_renderpass dev pass ci res).resources.get_render_target d.name
      = some { rt with image := none } := by
  rw [add_renderpass_resources_of_not_missing hm]
  exact moveDepthImage_get hd hrt

/-- Witness for the amended C7: a pass with a size-mismatched pair of
outputs ("a" 100×100, "b" 80×60) and depth "d" fails with attachment errors,
yet the registry entry for "d" has lost its image. -/
theorem add_renderpass_moves_depth_image_witness :
    ((emptyGraph.add_renderpass fixtureDevice (freshPass "P7b")
        ⟨"P7b", [⟨"a"⟩, ⟨"b"⟩], some ⟨"d"⟩, []⟩ fixtureRegistry).resources.get_render_target "d")
      = some { image := none, width := 50, height := 50 } :=
  add_renderpass_moves_depth_image emptyGraph fixtureDevice (freshPass "P7b")
    ⟨"P7b", [⟨"a"⟩, ⟨"b"⟩], some ⟨"d"⟩, []⟩ fixtureRegistry ⟨"d"⟩ ⟨some 2, 50, 50⟩
    rfl (by decide) (by decide)

/-- A resolved non-backbuffer attachment whose size matches the established
framebuffer size (or arrives while no size is established yet) extends the
color attachments and (re)establishes the framebuffer size, with no error,
no log output, and no pass mutation. -/
theorem processAttachment_resolved_same {dev : RenderDevice} {res : DeviceResources}
    {n : Nat} {pn : String} {st : AttachState} {att : TextureAttachmentInfo}
    {rt : RenderTargetEntry}
    (h1 : att.name ≠ BACKBUFFER_NAME) (hrt : res.get_render_target att.name = some rt)
    (hst : st.framebuffer_width = 0 ∨
      (st.framebuffer_width = rt.width ∧ st.framebuffer_height = rt.height)) :
    processAttachment dev res n pn st att
      = { st with
          color_attachments := st.color_attachments ++ [rt.image]
          framebuffer_width := rt.width
          framebuffer_height := rt.height } := by
  rcases hst with h0 | ⟨hfw, hfh⟩
  · exact processAttachment_resolved_zero h1 hrt h0
  · by_cases hpos : 0 < st.framebuffer_width
    · rw [processAttachment_resolved_match h1 hrt hpos hfw.symm hfh.symm]
      rw [← hfw, ← hfh]
    · rw [processAttachment_resolved_zero h1 hrt (Nat.eq_zero_of_not_pos hpos)]

/-- Folding over outputs that all resolve to entries of one common size
`w×h` records no error, logs nothing, leaves the missing flag and the pass
object alone, and ends with the framebuffer sized `w×h` (when the list is
non-empty). -/
theorem foldl_resolved_same {dev : RenderDevice} {res : DeviceResources}
    {n : Nat} {pn : String} {w h : Nat} (l : List TextureAttachmentInfo) :
    ∀ st : AttachState,
      (∀ att ∈ l, att.name ≠ BACKBUFFER_NAME ∧
        ∃ rt, res.get_render_target att.name = some rt ∧ rt.width = w ∧ rt.height = h) →
      (st.framebuffer_width = 0 ∨
        (st.framebuffer_width = w ∧ st.framebuffer_height = h)) →
      (l.foldl (processAttachment dev res n pn) st).attachment_errors
          = st.attachment_errors ∧
      (l.foldl (processAttachment dev res n pn) st).missing_render_targets
          = st.missing_render_targets ∧
      (l.foldl (processAttachment dev res n pn) st).pass = st.pass ∧
      (l.foldl (processAttachment dev res n pn) st).log = st.log ∧
      (l ≠ [] → (l.foldl (processAttachment dev res n pn) st).framebuffer_width = w ∧
        (l.foldl (processAttachment dev res n pn) st).framebuffer_height = h) := by
  induction l with
  | nil =>
    intro st _ _
    exact ⟨rfl, rfl, rfl, rfl, fun hne => absurd rfl hne⟩
  | cons x xs ih =>
    intro st hall hst
    obtain ⟨hbb, rt, hrt, hw, hh⟩ := hall x (List.mem_cons_self x xs)
    have hstep : processAttachment dev res n pn st x
        = { st with
            color_attachments := st.color_attachments ++ [rt.image]
            framebuffer_width := rt.width
            framebuffer_height := rt.height } := by
      apply processAttachment_resolved_same hbb hrt
      rcases hst with h0 | ⟨hfw, hfh⟩
      · exact Or.inl h0
      · exact Or.inr ⟨by rw [hfw, hw], by rw [hfh, hh]⟩
    have hxs := ih (processAttachment dev res n pn st x)
      (fun att hmem => hall att (List.mem_cons_of_mem x hmem))
      (by rw [hstep]; exact Or.inr ⟨hw, hh⟩)
    simp only [List.foldl_cons]
    refine ⟨?_, ?_, ?_, ?_, fun _ => ?_⟩
    · rw [hxs.1, hstep]
    · rw [hxs.2.1, hstep]
    · rw [hxs.2.2.1, hstep]
    · rw [hxs.2.2.2.1, hstep]
    · cases hc : xs with
      | nil =>
        rw [List.foldl_nil, hstep]
        exact ⟨hw, hh⟩
      | cons y ys =>
        rw [← hc]
        exact hxs.2.2.2.2 (by rw [hc]; exact List.cons_ne_nil y ys)

/-- Counterexample to C4: a pass declaring only a depth attachment ("a",
100×100) — all of its declared attachments resolve to entries of identical
size — succeeds, but the framebuffer is created with size 0×0, not the
common attachment size. -/
theorem add_renderpass_depth_only_framebuffer_zero :
    fixtureRegistry.get_render_target "a" = some ⟨some 1, 100, 100⟩ ∧
    ((emptyGraph.add_renderpass fixtureDevice (freshPass "P4")
        ⟨"P4", [], some ⟨"a"⟩, []⟩ fixtureRegistry).result.map
      (fun p => p.framebuffer.map (fun fb => (fb.width, fb.height))))
      = some (some (0, 0)) ∧
    (0, 0) ≠ (100, 100) := by
  decide

/-- C4 (amended): for every pass with at least one declared color output
whose declared attachments (color outputs and the optional depth) all
resolve to registry entries of one common width/height, and for which the
device creation calls succeed, `add_renderpass` succeeds and the resulting
framebuffer's size equals that common size.  (A depth-only pass instead gets
a 0×0 framebuffer: the depth attachment never contributes to the size; see
the counterexample.) -/
theorem add_renderpass_uniform_attachments_succeeds
    (g : Rendergraph) (dev : RenderDevice) (pass : Renderpass)
    (ci : RenderPassCreateInfo) (res : DeviceResources) (w h : Nat)
    (hne : ci.texture_outputs ≠ [])
    (hall : ∀ att ∈ ci.texture_outputs, att.name ≠ BACKBUFFER_NAME ∧
      ∃ rt, res.get_render_target att.name = some rt ∧ rt.width = w ∧ rt.height = h)
    (_hdep : ∀ d, ci.depth_texture = some d →
      ∃ rt, res.get_render_target d.name = some rt ∧ rt.width = w ∧ rt.height = h)
    (hwb : pass.writes_to_backbuffer = false)
    (hrp : dev.renderpass_ok = true)
    (hfb : dev.framebuffer_ok = true) :
    ∃ p, (g.add_renderpass dev pass ci res).result = some p ∧
      (p.framebuffer.map RhiFramebuffer.width) = some w ∧
      (p.framebuffer.map RhiFramebuffer.height) = some h := by
  have hfold := @foldl_resolved_same dev res ci.texture_outputs.length ci.name w h
    ci.texture_outputs (initAttachState pass) hall (Or.inl rfl)
  have hE : (attachState dev res ci pass).attachment_errors = [] := hfold.1
  have hm : (attachState dev res ci pass).missing_render_targets = false := hfold.2.1
  have hpass : (attachState dev res ci pass).pass = pass := hfold.2.2.1
  have hfw : (attachState dev res ci pass).framebuffer_width = w := (hfold.2.2.2.2 hne).1
  have hfh : (attachState dev res ci pass).framebuffer_height = h := (hfold.2.2.2.2 hne).2
  rw [add_renderpass_of_success hm hE hrp]
  refine ⟨_, rfl, ?_, ?_⟩ <;>
    simp [builtPass, hpass, hwb, RenderDevice.create_framebuffer, hfb, hfw, hfh]

/-- Witness for the amended C4: outputs "a", "a2" and depth "a2", all
100×100, on the all-succeeding device. -/
theorem add_renderpass_uniform_attachments_succeeds_witness :
    ∃ p, (emptyGraph.add_renderpass fixtureDevice (freshPass "P4w")
        ⟨"P4w", [⟨"a"⟩, ⟨"a2"⟩], some ⟨"a2"⟩, []⟩ fixtureRegistry).result = some p ∧
      (p.framebuffer.map RhiFramebuffer.width) = some 100 ∧
      (p.framebuffer.map RhiFramebuffer.height) = some 100 :=
  add_renderpass_uniform_attachments_succeeds emptyGraph fixtureDevice (freshPass "P4w")
    ⟨"P4w", [⟨"a"⟩, ⟨"a2"⟩], some ⟨"a2"⟩, []⟩ fixtureRegistry 100 100
    (by decide) (by decide) (by decide) rfl rfl rfl

/-- Folding over resolving non-backbuffer outputs from a state with an
established positive framebuffer size keeps that size, keeps the missing
flag, and records a size-mismatch error for every output whose resolved
entry disagrees with the established size. -/
theorem foldl_mismatch_collected {dev : RenderDevice} {res : DeviceResources}
    {n : Nat} {pn : String} {W H : Nat} (hW : 0 < W) (l : List TextureAttachmentInfo) :
    ∀ st : AttachState,
      st.framebuffer_width = W → st.framebuffer_height = H →
      (∀ att ∈ l, att.name ≠ BACKBUFFER_NAME ∧
        ∃ rt, res.get_render_target att.name = some rt) →
      (l.foldl (processAttachment dev res n pn) st).framebuffer_width = W ∧
      (l.foldl (processAttachment dev res n pn) st).missing_render_targets
        = st.missing_render_targets ∧
      ∀ att ∈ l, ∀ rt, res.get_render_target att.name = some rt →
        (rt.width ≠ W ∨ rt.height ≠ H) →
        LogEntry.sizeMismatch att.name rt.width rt.height pn W H
          ∈ (l.foldl (processAttachment dev res n pn) st).attachment_errors := by
  induction l with
  | nil =>
    intro st hfw _ _
    exact ⟨hfw, rfl, fun att hmem => absurd hmem (List.not_mem_nil att)⟩
  | cons x xs ih =>
    intro st hfw hfh hall
    obtain ⟨hbb, rt, hrt⟩ := hall x (List.mem_cons_self x xs)
    have hpos : 0 < st.framebuffer_width := by rw [hfw]; exact hW
    by_cases hx : rt.width ≠ W ∨ rt.height ≠ H
    · have hstep : processAttachment dev res n pn st x
          = { st with
              color_attachments := st.color_attachments ++ [rt.image]
              attachment_errors := st.attachment_errors ++
                [LogEntry.sizeMismatch x.name rt.width rt.height pn W H] } := by
        rw [@processAttachment_resolved_mismatch dev res n pn st x rt hbb hrt hpos
          (by rw [hfw, hfh]; exact hx), hfw, hfh]
      have hxs := ih (processAttachment dev res n pn st x)
        (by rw [hstep]; exact hfw) (by rw [hstep]; exact hfh)
        (fun att hmem => hall att (List.mem_cons_of_mem x hmem))
      simp only [List.foldl_cons]
      refine ⟨hxs.1, ?_, ?_⟩
      · rw [hxs.2.1, hstep]
      · intro att hmem rt' hrt' hmm
        rcases List.mem_cons.mp hmem with heq | hmem'
        · subst heq
          have hrteq : rt' = rt := by
            rw [hrt] at hrt'
            injection hrt' with hinj
            exact hinj.symm
          subst hrteq
          apply foldl_errors_mem
          rw [hstep]
          simp
        · exact hxs.2.2 att hmem' rt' hrt' hmm
    · push_neg at hx
      have hstep : processAttachment dev res n pn st x
          = { st with color_attachments := st.color_attachments ++ [rt.image] } := by
        exact processAttachment_resolved_match hbb hrt hpos
          (by rw [hfw]; exact hx.1) (by rw [hfh]; exact hx.2)
      have hxs := ih (processAttachment dev res n pn st x)
        (by rw [hstep]; exact hfw) (by rw [hstep]; exact hfh)
        (fun att hmem => hall att (List.mem_cons_of_mem x hmem))
      simp only [List.foldl_cons]
      refine ⟨hxs.1, ?_, ?_⟩
      · rw [hxs.2.1, hstep]
      · intro att hmem rt' hrt' hmm
        rcases List.mem_cons.mp hmem with heq | hmem'
        · subst heq
          have hrteq : rt' = rt := by
            rw [hrt] at hrt'
            injection hrt' with hinj
            exact hinj.symm
          subst hrteq
          rcases hmm with hmm | hmm
          · exact absurd hx.1 hmm
          · exact absurd hx.2 hmm
        · exact hxs.2.2 att hmem' rt' hrt' hmm

/-- Counterexample to C2: the depth attachment is never size-checked.  A
pass with one color output "a" (100×100) and depth texture "d" (50×50) —
sizes that disagree — is created successfully with no recorded error. -/
theorem add_renderpass_depth_size_not_checked :
    fixtureRegistry.get_render_target "a" = some ⟨some 1, 100, 100⟩ ∧
    fixtureRegistry.get_render_target "d" = some ⟨some 2, 50, 50⟩ ∧
    (emptyGraph.add_renderpass fixtureDevice (freshPass "P2")
        ⟨"P2", [⟨"a"⟩], some ⟨"d"⟩, []⟩ fixtureRegistry).result ≠ none ∧
    (emptyGraph.add_renderpass fixtureDevice (freshPass "P2")
        ⟨"P2", [⟨"a"⟩], some ⟨"d"⟩, []⟩ fixtureRegistry).log = [] := by
  decide

/-- C2 (amended): the non-backbuffer *color* attachments of one pass must
share one common width/height: the first resolved color attachment
establishes the expected size (assumed positive), every later resolving
color output whose size differs has a size-mismatch error recorded and
reported in the log, and when such a mismatch exists the pass is not
created and the graph is unchanged.  (The optional depth attachment is
never size-checked; see the counterexample.) -/
theorem add_renderpass_size_mismatch_fails
    (g : Rendergraph) (dev : RenderDevice) (pass : Renderpass)
    (ci : RenderPassCreateInfo) (res : DeviceResources)
    (first : TextureAttachmentInfo) (rest : List TextureAttachmentInfo)
    (rt0 : RenderTargetEntry)
    (hout : ci.texture_outputs = first :: rest)
    (hfbb : first.name ≠ BACKBUFFER_NAME)
    (hfirst : res.get_render_target first.name = some rt0)
    (hpos : 0 < rt0.width)
    (hall : ∀ att ∈ rest, att.name ≠ BACKBUFFER_NAME ∧
      ∃ rt, res.get_render_target att.name = some rt)
    (hmm : ∃ att ∈ rest, ∃ rt, res.get_render_target att.name = some rt ∧
      (rt.width ≠ rt0.width ∨ rt.height ≠ rt0.height)) :
    (g.add_renderpass dev pass ci res).result = none ∧
    (g.add_renderpass dev pass ci res).graph = g ∧
    ∀ att ∈ rest, ∀ rt, res.get_render_target att.name = some rt →
      (rt.width ≠ rt0.width ∨ rt.height ≠ rt0.height) →
      LogEntry.sizeMismatch att.name rt.width rt.height ci.name rt0.width rt0.height
        ∈ (g.add_renderpass dev pass ci res).log := by
  have hunfold : attachState dev res ci pass
      = rest.foldl (processAttachment dev res (first :: rest).length ci.name)
          (processAttachment dev res (first :: rest).length ci.name
            (initAttachState pass) first) := by
    unfold attachState
    rw [hout, List.foldl_cons]
  have hstep1 : processAttachment dev res (first :: rest).length ci.name
      (initAttachState pass) first
      = { initAttachState pass with
          color_attachments := [] ++ [rt0.image]
          framebuffer_width := rt0.width
          framebuffer_height := rt0.height } :=
    processAttachment_resolved_zero hfbb hfirst rfl
  have hfold := @foldl_mismatch_collected dev res (first :: rest).length ci.name
    rt0.width rt0.height hpos rest
    (processAttachment dev res (first :: rest).length ci.name (initAttachState pass) first)
    (by rw [hstep1]) (by rw [hstep1]) hall
  have hm : (attachState dev res ci pass).missing_render_targets = false := by
    rw [hunfold, hfold.2.1, hstep1]
    rfl
  have herr : (attachState dev res ci pass).attachment_errors ≠ [] := by
    obtain ⟨att, hmem, rt, hrt, hne⟩ := hmm
    have := hfold.2.2 att hmem rt hrt hne
    rw [hunfold]
    exact List.ne_nil_of_mem this
  rw [add_renderpass_of_errors hm herr]
  refine ⟨rfl, rfl, ?_⟩
  intro att hmem rt hrt hne
  have hin : LogEntry.sizeMismatch att.name rt.width rt.height ci.name rt0.width rt0.height
      ∈ (attachState dev res ci pass).attachment_errors := by
    rw [hunfold]
    exact hfold.2.2 att hmem rt hrt hne
  show LogEntry.sizeMismatch att.name rt.width rt.height ci.name rt0.width rt0.height
    ∈ (attachState dev res ci pass).log ++ (attachState dev res ci pass).attachment_errors
      ++ [LogEntry.attachmentSpecError ci.name]
  exact List.mem_append_left _ (List.mem_append_right _ hin)

/-- Witness for the amended C2: outputs "a" (100×100) and "b" (80×60)
disagree; the pass is rejected, the graph untouched, and the mismatch for
"b" reported. -/
theorem add_renderpass_size_mismatch_fails_witness :
    (emptyGraph.add_renderpass fixtureDevice (freshPass "P2w")
        ⟨"P2w", [⟨"a"⟩, ⟨"b"⟩], none, []⟩ fixtureRegistry).result = none ∧
    (emptyGraph.add_renderpass fixtureDevice (freshPass "P2w")
        ⟨"P2w", [⟨"a"⟩, ⟨"b"⟩], none, []⟩ fixtureRegistry).graph = emptyGraph ∧
    ∀ att ∈ [(⟨"b"⟩ : TextureAttachmentInfo)], ∀ rt : RenderTargetEntry,
      fixtureRegistry.get_render_target att.name = some rt →
      (rt.width ≠ 100 ∨ rt.height ≠ 100) →
      LogEntry.sizeMismatch att.name rt.width rt.height "P2w" 100 100
        ∈ (emptyGraph.add_renderpass fixtureDevice (freshPass "P2w")
            ⟨"P2w", [⟨"a"⟩, ⟨"b"⟩], none, []⟩ fixtureRegistry).log :=
  add_renderpass_size_mismatch_fails emptyGraph fixtureDevice (freshPass "P2w")
    ⟨"P2w", [⟨"a"⟩, ⟨"b"⟩], none, []⟩ fixtureRegistry ⟨"a"⟩ [⟨"b"⟩] ⟨some 1, 100, 100⟩
    rfl (by decide) (by decide) (by decide)
    (by
      intro att hmem
      have h := List.mem_singleton.mp hmem
      subst h
      exact ⟨by decide, ⟨some 4, 80, 60⟩, by decide⟩)
    ⟨⟨"b"⟩, by decide, ⟨some 4, 80, 60⟩, by decide, by decide⟩

/-! ## Map helper lemmas -/

theorem removeKey_of_lookup_none {α : Type} (k : String) :
    ∀ l : List (String × α), lookupKey k l = none → removeKey k l = l := by
  intro l
  induction l with
  | nil => intro _; rfl
  | cons p ps ih =>
    intro h
    by_cases hpk : p.1 = k
    · simp only [lookupKey, if_pos hpk] at h
      exact Option.noConfusion h
    · simp only [lookupKey, if_neg hpk] at h
      simp only [removeKey, if_neg hpk, ih h]

theorem destroy_renderpass_of_absent (g : Rendergraph) (name : String)
    (h : lookupKey name g.renderpasses = none) :
    g.destroy_renderpass name = g := by
  unfold Rendergraph.destroy_renderpass
  rw [h]
  rfl

/-- Counterexample to C6: after `add A; add B; destroy A`, adding pass "C"
assigns it id 1 — equal to the id of pass "B", which is still registered.
Newly assigned ids are therefore not monotonically increasing with respect
to ids still in use. -/
theorem add_renderpass_id_reused_after_destroy :
    (c6Step4.result.map Renderpass.id) = some 1 ∧
    ((c6Graph3.get_renderpass "B").map Renderpass.id) = some 1 ∧
    ((c6Step4.graph.get_renderpass "B").map Renderpass.id) = some 1 ∧
    ((c6Step4.graph.get_renderpass "C").map Renderpass.id) = some 1 := by
  decide

/-- C6 (amended): a pass's id is assigned at registration time as the
current size of the metadata map, and as long as no pass has ever been
removed (expressed by the invariant that every registered id is below the
metadata count) and the new name is fresh, the new id strictly exceeds
every id still in use and the invariant is preserved.  After a removal the
ids restart below the count and can collide with ids still in use; see the
counterexample. -/
theorem add_renderpass_id_assignment
    (g : Rendergraph) (dev : RenderDevice) (pass : Renderpass)
    (ci : RenderPassCreateInfo) (res : DeviceResources)
    (hinv : ∀ q ∈ g.renderpasses, q.2.id < g.renderpass_metadatas.length)
    (hfresh : lookupKey ci.name g.renderpasses = none)
    (hfreshm : lookupKey ci.name g.renderpass_metadatas = none) :
    ∀ p, (g.add_renderpass dev pass ci res).result = some p →
      p.id = g.renderpass_metadatas.length ∧
      (∀ q ∈ g.renderpasses, q.2.id < p.id) ∧
      (∀ q ∈ (g.add_renderpass dev pass ci res).graph.renderpasses,
        q.2.id < (g.add_renderpass dev pass ci res).graph.renderpass_metadatas.length) := by
  intro p hp
  cases hm : (attachState dev res ci pass).missing_render_targets with
  | true =>
    rw [add_renderpass_of_missing hm] at hp
    cases hp
  | false =>
    cases hE : (attachState dev res ci pass).attachment_errors with
    | cons a as =>
      rw [add_renderpass_of_errors hm (by rw [hE]; simp)] at hp
      cases hp
    | nil =>
      cases hrp : dev.renderpass_ok with
      | false =>
        rw [add_renderpass_of_renderpass_fail hm hE hrp] at hp
        cases hp
      | true =>
        rw [add_renderpass_of_success hm hE hrp] at hp
        rw [add_renderpass_of_success hm hE hrp]
        replace hp : some (builtPass g dev ci (attachState dev res ci pass)
            (moveDepthImage ci res).1) = some p := hp
        injection hp with hp
        subst hp
        have hg1 : g.destroy_renderpass ci.name = g :=
          destroy_renderpass_of_absent g ci.name hfresh
        refine ⟨rfl, fun q hq => hinv q hq, ?_⟩
        show ∀ q ∈ (graphAfterInsert g ci _).renderpasses,
          q.2.id < (graphAfterInsert g ci _).renderpass_metadatas.length
        simp only [graphAfterInsert, insertKey, hg1,
          removeKey_of_lookup_none ci.name g.renderpasses hfresh,
          removeKey_of_lookup_none ci.name g.renderpass_metadatas hfreshm]
        intro q hq
        simp only [List.length_append, List.length_singleton]
        rcases List.mem_append.mp hq with hq' | hq'
        · exact Nat.lt_succ_of_lt (hinv q hq')
        · rw [List.mem_singleton.mp hq']
          exact Nat.lt_succ_self _

/-- Witness for the amended C6: adding "W6" to the empty graph assigns
id 0 = current metadata count, and the invariant is preserved. -/
theorem add_renderpass_id_assignment_witness :
    (⟨0, "W6", false, some ⟨100, 100⟩, some ⟨[some 1], none, 100, 100⟩, [], false⟩
        : Renderpass).id = emptyGraph.renderpass_metadatas.length ∧
    (∀ q ∈ emptyGraph.renderpasses, q.2.id
      < (⟨0, "W6", false, some ⟨100, 100⟩, some ⟨[some 1], none, 100, 100⟩, [], false⟩
          : Renderpass).id) ∧
    (∀ q ∈ (emptyGraph.add_renderpass fixtureDevice (freshPass "W6")
        ⟨"W6", [⟨"a"⟩], none, []⟩ fixtureRegistry).graph.renderpasses,
      q.2.id < (emptyGraph.add_renderpass fixtureDevice (freshPass "W6")
        ⟨"W6", [⟨"a"⟩], none, []⟩ fixtureRegistry).graph.renderpass_metadatas.length) :=
  add_renderpass_id_assignment emptyGraph fixtureDevice (freshPass "W6")
    ⟨"W6", [⟨"a"⟩], none, []⟩ fixtureRegistry
    (by decide) (by decide) (by decide)
    ⟨0, "W6", false, some ⟨100, 100⟩, some ⟨[some 1], none, 100, 100⟩, [], false⟩
    (by decide)

/-- C9: `destroy_renderpass` on a name that is not registered is a no-op
that succeeds: the pass map, the metadata map, the cached execution order
and its staleness flag are all unchanged. -/
theorem destroy_renderpass_absent_noop (g : Rendergraph) (name : String)
    (h : g.get_renderpass name = none) :
    g.destroy_renderpass name = g :=
  destroy_renderpass_of_absent g name h

/-- Witness for C9: destroying the unregistered name "missing" on the empty
graph leaves it untouched. -/
theorem destroy_renderpass_absent_noop_witness :
    emptyGraph.destroy_renderpass "missing" = emptyGraph :=
  destroy_renderpass_absent_noop emptyGraph "missing" rfl

/-- C8: `calculate_renderpass_execution_order` is idempotent — calling it on
the state a first call returns yields the same order and the same state; the
state any call returns has a fresh (cleared) staleness flag; and on a fresh
cache the cached value is returned with the graph unchanged (no
recomputation). -/
theorem calculate_execution_order_idempotent (g : Rendergraph) :
    (g.calculate_renderpass_execution_order.2).calculate_renderpass_execution_order
      = g.calculate_renderpass_execution_order ∧
    (g.calculate_renderpass_execution_order.2).is_dirty = false ∧
    (g.is_dirty = false →
      g.calculate_renderpass_execution_order = (g.cached_execution_order, g)) := by
  unfold Rendergraph.calculate_renderpass_execution_order
  by_cases hd : g.is_dirty
  · simp [hd]
  · simp [hd]

/-- Witness for C8 at the empty graph. -/
theorem calculate_execution_order_idempotent_witness :
    (emptyGraph.calculate_renderpass_execution_order.2).calculate_renderpass_execution_order
      = emptyGraph.calculate_renderpass_execution_order ∧
    (emptyGraph.calculate_renderpass_execution_order.2).is_dirty = false ∧
    (emptyGraph.is_dirty = false →
      emptyGraph.calculate_renderpass_execution_order
        = (emptyGraph.cached_execution_order, emptyGraph)) :=
  calculate_execution_order_idempotent emptyGraph

/-! ## Staging-buffer pool lemmas -/

theorem pickMinBucket_isSome (p : Nat × List StagingBuffer)
    (ps : List (Nat × List StagingBuffer)) :
    (pickMinBucket (p :: ps)).isSome = true := by
  unfold pickMinBucket
  cases h : pickMinBucket ps with
  | none => rfl
  | some q =>
    dsimp only
    split <;> rfl

theorem pickMinBucket_none :
    ∀ l : List (Nat × List StagingBuffer), pickMinBucket l = none → l = [] := by
  intro l h
  cases l with
  | nil => rfl
  | cons p ps =>
    have := pickMinBucket_isSome p ps
    rw [h] at this
    cases this

theorem pickMinBucket_mem :
    ∀ l : List (Nat × List StagingBuffer), ∀ q, pickMinBucket l = some q → q ∈ l := by
  intro l
  induction l with
  | nil => intro q h; cases h
  | cons p ps ih =>
    intro q h
    unfold pickMinBucket at h
    cases hps : pickMinBucket ps with
    | none =>
      rw [hps] at h
      injection h with h
      rw [← h]
      exact List.mem_cons_self p ps
    | some r =>
      rw [hps] at h
      dsimp only at h
      by_cases hle : p.1 ≤ r.1
      · rw [if_pos hle] at h
        injection h with h
        rw [← h]
        exact List.mem_cons_self p ps
      · rw [if_neg hle] at h
        injection h with h
        rw [← h]
        exact List.mem_cons_of_mem p (ih r hps)

theorem pickMinBucket_min :
    ∀ l : List (Nat × List StagingBuffer), ∀ q, pickMinBucket l = some q →
      ∀ p ∈ l, q.1 ≤ p.1 := by
  intro l
  induction l with
  | nil => intro q h; cases h
  | cons p ps ih =>
    intro q h x hx
    unfold pickMinBucket at h
    cases hps : pickMinBucket ps with
    | none =>
      rw [hps] at h
      injection h with h
      have hnil := pickMinBucket_none ps hps
      subst hnil
      rcases List.mem_singleton.mp hx with rfl
      rw [← h]
    | some r =>
      rw [hps] at h
      dsimp only at h
      rcases List.mem_cons.mp hx with heq | hx'
      · rw [heq]
        by_cases hle : p.1 ≤ r.1
        · rw [if_pos hle] at h
          injection h with h
          rw [← h]
        · rw [if_neg hle] at h
          injection h with h
          rw [← h]
          exact Nat.le_of_lt (Nat.lt_of_not_le hle)
      · by_cases hle : p.1 ≤ r.1
        · rw [if_pos hle] at h
          injection h with h
          rw [← h]
          exact Nat.le_trans hle (ih r hps x hx')
        · rw [if_neg hle] at h
          injection h with h
          rw [← h]
          exact ih r hps x hx'

theorem get_staging_capacity (N : Nat) (pool : StagingPool) (hwf : pool.wellFormed) :
    N ≤ (get_staging_buffer_with_size N pool).1.capacity := by
  unfold get_staging_buffer_with_size
  cases hpm : pickMinBucket (pool.buckets.filter (bucketFits N)) with
  | none => exact Nat.le_refl N
  | some q =>
    obtain ⟨c, lb⟩ := q
    cases lb with
    | nil => exact Nat.le_refl N
    | cons b rest =>
      have hmem := pickMinBucket_mem _ _ hpm
      have hf := (List.mem_filter.mp hmem).2
      have hmem' := (List.mem_filter.mp hmem).1
      have hc : N ≤ c := by
        simp only [bucketFits, Bool.and_eq_true, decide_eq_true_eq] at hf
        exact hf.1
      have hbc : b.capacity = c := hwf _ hmem' b (List.mem_cons_self b rest)
      show N ≤ b.capacity
      rw [hbc]
      exact hc

theorem get_staging_smallest (N : Nat) (pool : StagingPool) (hwf : pool.wellFormed) :
    ∀ p ∈ pool.buckets, bucketFits N p = true →
      (get_staging_buffer_with_size N pool).1.capacity ≤ p.1 := by
  intro p hmem hfit
  have hmf : p ∈ pool.buckets.filter (bucketFits N) := List.mem_filter.mpr ⟨hmem, hfit⟩
  unfold get_staging_buffer_with_size
  cases hpm : pickMinBucket (pool.buckets.filter (bucketFits N)) with
  | none =>
    rw [pickMinBucket_none _ hpm] at hmf
    cases hmf
  | some q =>
    obtain ⟨c, lb⟩ := q
    have hqf := (List.mem_filter.mp (pickMinBucket_mem _ _ hpm)).2
    have hqmem := (List.mem_filter.mp (pickMinBucket_mem _ _ hpm)).1
    cases lb with
    | nil => simp [bucketFits] at hqf
    | cons b rest =>
      have hmin := pickMinBucket_min _ _ hpm p hmf
      have hbc : b.capacity = c := hwf _ hqmem b (List.mem_cons_self b rest)
      show b.capacity ≤ p.1
      rw [hbc]
      exact hmin

theorem get_staging_no_alloc (N : Nat) (pool : StagingPool)
    (hex : ∃ p ∈ pool.buckets, bucketFits N p = true) :
    (get_staging_buffer_with_size N pool).2.alloc_count = pool.alloc_count := by
  obtain ⟨p, hmem, hfit⟩ := hex
  have hmf : p ∈ pool.buckets.filter (bucketFits N) := List.mem_filter.mpr ⟨hmem, hfit⟩
  unfold get_staging_buffer_with_size
  cases hpm : pickMinBucket (pool.buckets.filter (bucketFits N)) with
  | none =>
    rw [pickMinBucket_none _ hpm] at hmf
    cases hmf
  | some q =>
    obtain ⟨c, lb⟩ := q
    cases lb with
    | nil =>
      have hqf := (List.mem_filter.mp (pickMinBucket_mem _ _ hpm)).2
      simp [bucketFits] at hqf
    | cons b rest => rfl

theorem lookupKey_isSome_mem {κ α : Type} [DecidableEq κ] (k : κ) :
    ∀ l : List (κ × α), (lookupKey k l).isSome = true → ∃ v, (k, v) ∈ l := by
  intro l
  induction l with
  | nil => intro h; simp [lookupKey] at h
  | cons p ps ih =>
    intro h
    by_cases hpk : p.1 = k
    · refine ⟨p.2, ?_⟩
      rw [← hpk]
      exact List.mem_cons_self p ps
    · simp only [lookupKey, if_neg hpk] at h
      obtain ⟨v, hv⟩ := ih h
      exact ⟨v, List.mem_cons_of_mem p hv⟩

theorem release_has_fitting (b : StagingBuffer) (pool : StagingPool) (N : Nat)
    (hN : N ≤ b.capacity) :
    ∃ p ∈ (release_staging_buffer b pool).buckets, bucketFits N p = true := by
  unfold release_staging_buffer
  by_cases h : (lookupKey b.capacity pool.buckets).isSome = true
  · rw [if_pos h]
    obtain ⟨v, hv⟩ := lookupKey_isSome_mem b.capacity pool.buckets h
    refine ⟨(b.capacity, b :: v), ?_, ?_⟩
    · have hmm := List.mem_map_of_mem
        (fun p : Nat × List StagingBuffer =>
          if p.1 = b.capacity then (p.1, b :: p.2) else p) hv
      simpa using hmm
    · simp [bucketFits, hN]
  · rw [if_neg h]
    exact ⟨(b.capacity, [b]), by simp, by simp [bucketFits, hN]⟩

/-- C10: `get_staging_buffer_with_size(N)` always returns a pool entry with
capacity at least `N`, preferring the smallest bucket with a free entry that
satisfies the request; and when a previously returned buffer (of capacity at
least the earlier request `M ≥ N`) has been released back into the pool, a
subsequent request of size `N` performs no new device allocation (the
allocation counter is unchanged). -/
theorem get_staging_buffer_with_size_spec (pool : StagingPool) (N M : Nat)
    (hwf : pool.wellFormed) (hNM : N ≤ M) :
    N ≤ (get_staging_buffer_with_size N pool).1.capacity ∧
    (∀ p ∈ pool.buckets, bucketFits N p = true →
      (get_staging_buffer_with_size N pool).1.capacity ≤ p.1) ∧
    (get_staging_buffer_with_size N
        (release_staging_buffer (get_staging_buffer_with_size M pool).1
          (get_staging_buffer_with_size M pool).2)).2.alloc_count
      = (release_staging_buffer (get_staging_buffer_with_size M pool).1
          (get_staging_buffer_with_size M pool).2).alloc_count := by
  refine ⟨get_staging_capacity N pool hwf, get_staging_smallest N pool hwf, ?_⟩
  apply get_staging_no_alloc
  apply release_has_fitting
  exact Nat.le_trans hNM (get_staging_capacity M pool hwf)

/-- Witness for C10: an allocation of size 100 released into the empty pool
is reused by a request of size 60 with no new allocation. -/
theorem get_staging_buffer_with_size_spec_witness :
    60 ≤ (get_staging_buffer_with_size 60 (⟨[], 0, 0⟩ : StagingPool)).1.capacity ∧
    (∀ p ∈ (⟨[], 0, 0⟩ : StagingPool).buckets, bucketFits 60 p = true →
      (get_staging_buffer_with_size 60 (⟨[], 0, 0⟩ : StagingPool)).1.capacity ≤ p.1) ∧
    (get_staging_buffer_with_size 60
        (release_staging_buffer
          (get_staging_buffer_with_size 100 (⟨[], 0, 0⟩ : StagingPool)).1
          (get_staging_buffer_with_size 100 (⟨[], 0, 0⟩ : StagingPool)).2)).2.alloc_count
      = (release_staging_buffer
          (get_staging_buffer_with_size 100 (⟨[], 0, 0⟩ : StagingPool)).1
          (get_staging_buffer_with_size 100 (⟨[], 0, 0⟩ : StagingPool)).2).alloc_count :=
  get_staging_buffer_with_size_spec ⟨[], 0, 0⟩ 60 100 (by decide) (by decide)

end NovaRenderer
